import Mathlib

/-!
Shallow embedding of the OODA brand-reputation pipeline
(collect_rss.py, init_db.py, orchestrator.py, ooda_orient.py, ooda_decide.py,
ooda_act.py) and proofs about its claimed properties.

Machine values coming back from `json.loads` are modelled by the inductive
`JVal`; Python floats are modelled exactly by rationals; database tables are
modelled as lists of rows with explicit state passing.
-/

set_option maxRecDepth 8192
set_option maxHeartbeats 1600000

namespace BrandMon

/-! ## Python string primitives

Python's `str.lower`, `str.upper`, `str.strip`, `str.split`, `" ".join` and
the substring test `a in b` are modelled over the character list of a
`String` (ASCII case mapping, which is all the pipeline's inputs use).
These definitions are fully executable by kernel reduction. -/

/-- ASCII lower-casing of one character (Python `str.lower` on ASCII). -/
def lowerChar (c : Char) : Char :=
  if 'A' ≤ c && c ≤ 'Z' then Char.ofNat (c.toNat + 32) else c

/-- ASCII upper-casing of one character (Python `str.upper` on ASCII). -/
def upperChar (c : Char) : Char :=
  if 'a' ≤ c && c ≤ 'z' then Char.ofNat (c.toNat - 32) else c

/-- Python `s.lower()`. -/
def pyLower (s : String) : String := ⟨s.data.map lowerChar⟩

/-- Python `s.upper()`. -/
def pyUpper (s : String) : String := ⟨s.data.map upperChar⟩

/-- Python's whitespace class for `str.strip`/`str.split`. -/
def isWsChar (c : Char) : Bool :=
  c == ' ' || c == '\t' || c == '\n' || c == '\r' || c == '\x0b' || c == '\x0c'

/-- Drop leading and trailing whitespace from a character list. -/
def stripList (l : List Char) : List Char :=
  ((l.dropWhile isWsChar).reverse.dropWhile isWsChar).reverse

/-- Python `s.strip()`: drop leading and trailing whitespace. -/
def pyStrip (s : String) : String := ⟨stripList s.data⟩

/-- Helper for Python `s.split()` (no separator): whitespace-separated
words, empty pieces discarded. -/
def wordsAux : List Char → List Char → List (List Char)
  | [], acc => if acc.isEmpty then [] else [acc.reverse]
  | c :: cs, acc =>
    if isWsChar c then
      if acc.isEmpty then wordsAux cs [] else acc.reverse :: wordsAux cs []
    else wordsAux cs (c :: acc)

/-- Python `" ".join(s.split())`: collapse all whitespace runs to single
spaces and drop leading/trailing whitespace. -/
def normWs (s : String) : String :=
  ⟨List.intercalate [' '] (wordsAux s.data [])⟩

/-- Helper for Python `s.split(sep)` with a non-empty separator:
left-to-right, non-overlapping.  `fuel` bounds the recursion (the input
length suffices). -/
def splitOnFuel (sep : List Char) : Nat → List Char → List Char → List (List Char)
  | 0, l, acc => [acc.reverse ++ l]
  | _ + 1, [], acc => [acc.reverse]
  | fuel + 1, c :: rest, acc =>
    if sep.isPrefixOf (c :: rest) && !sep.isEmpty then
      acc.reverse :: splitOnFuel sep fuel ((c :: rest).drop sep.length) []
    else
      splitOnFuel sep fuel rest (c :: acc)

/-- Python `s.split(sep)` for a non-empty separator string. -/
def pySplitOn (s sep : String) : List String :=
  (splitOnFuel sep.data (s.data.length + 1) s.data []).map (fun l => ⟨l⟩)

/-- Python `sep.join(parts)`. -/
def pyJoin (sep : String) (parts : List String) : String :=
  ⟨List.intercalate sep.data (parts.map String.data)⟩

/-- A JSON value as produced by Python's `json.loads`:
`None`, `bool`, `int`/`float` (modelled as an exact rational), `str`,
`list`, `dict`. -/
inductive JVal where
  | jnull : JVal
  | jbool (b : Bool) : JVal
  | jnum (q : ℚ) : JVal
  | jstr (s : String) : JVal
  | jarr (xs : List JVal) : JVal
  | jobj (kvs : List (String × JVal)) : JVal

/-- Python truthiness (`bool(v)`) on JSON values: `None`, `False`, `0`,
`""`, `[]`, `\x7b\x7d` are falsy, everything else truthy. -/
def pyTruthy : JVal → Bool
  | .jnull => false
  | .jbool b => b
  | .jnum q => q != 0
  | .jstr s => !s.data.isEmpty
  | .jarr xs => !xs.isEmpty
  | .jobj kvs => !kvs.isEmpty

/-- Python `str(v)` on JSON values.  Strings pass through unchanged; the
rendering of the non-string cases is a simplification of Python's `str`
(never producing an enum-looking word), which is all the pipeline's
normalization paths depend on. -/
def pyStr : JVal → String
  | .jnull => "None"
  | .jbool true => "True"
  | .jbool false => "False"
  | .jnum q => toString q.num ++ (if q.den == 1 then "" else "/" ++ toString q.den)
  | .jstr s => s
  | .jarr _ => "[...]"
  | .jobj _ => "\x7b...\x7d"

/-- Python's `a in b` on strings: substring containment. -/
def strContains (hay pat : String) : Bool :=
  decide (pat.data <:+: hay.data)

/-- Python `a or b` for optional strings (`None`/empty are falsy). -/
def pyOrStr (a : Option String) (b : String) : String :=
  match a with
  | some s => if s.data.isEmpty then b else s
  | none => b

/-- Python `v or d` on JSON values (used by compute_stats). -/
def pyOrJ (v d : JVal) : JVal :=
  if pyTruthy v then v else d

/-- `isinstance(v, list)` on a JSON value. -/
def isPyList : JVal → Bool
  | .jarr _ => true
  | _ => false

/-- `isinstance(v, (int, float))` on a JSON value, returning the numeric
value.  Note that in Python `bool` is a subclass of `int`, so JSON booleans
count as numeric `0`/`1`. -/
def numVal : JVal → Option ℚ
  | .jnum q => some q
  | .jbool b => some (if b then 1 else 0)
  | _ => none

/-! ## ooda_decide.py: response normalization (`decide_one`, lines 175-202) -/

/-- `INTENT_ENUM` from ooda_decide.py. -/
def INTENT_ENUM : List String := ["THREAT", "DEFENSE", "NEUTRAL", "OPPORTUNITY", "NOISE"]

/-- The urgency whitelist inlined in `decide_one`. -/
def URGENCY_VALUES : List String := ["low", "medium", "high"]

/-- A parsed Decide service response: the JSON object returned by the
text-generation service, with the six schema keys as optional fields
(`none` = key absent). -/
structure DecideObj where
  intent_framing : Option JVal := none
  urgency : Option JVal := none
  escalation_team : Option JVal := none
  recommended_action : Option JVal := none
  rationale : Option JVal := none
  no_regret_move : Option JVal := none

/-- The post-parse normalization performed by `decide_one`
(ooda_decide.py lines 187-202):
`intent = str(obj.get("intent_framing", "")).strip().upper()`, coerced to
`"NEUTRAL"` when outside `INTENT_ENUM`, and written back;
`urg = str(obj.get("urgency", "")).strip().lower()`, and only when `urg`
is outside `\x7b"low","medium","high"\x7d` is `obj["urgency"]` overwritten with
`"low"` (otherwise the original raw value is kept);
`team = obj.get("escalation_team", [])`, overwritten with `[]` only when it
is not a list. -/
def decide_one_normalize (obj : DecideObj) : DecideObj :=
  let intent0 := pyUpper (pyStrip (pyStr (obj.intent_framing.getD (.jstr ""))))
  let intent := if INTENT_ENUM.contains intent0 then intent0 else "NEUTRAL"
  let obj1 := { obj with intent_framing := some (.jstr intent) }
  let urg := pyLower (pyStrip (pyStr (obj1.urgency.getD (.jstr ""))))
  let obj2 := if URGENCY_VALUES.contains urg then obj1
              else { obj1 with urgency := some (.jstr "low") }
  let team := obj2.escalation_team.getD (.jarr [])
  if isPyList team then obj2 else { obj2 with escalation_team := some (.jarr []) }

/-- The fixed record inserted by the pre-dispatch brand-relevance
short-circuit in `ooda_decide.main` (lines 272-279). -/
def noise_record : DecideObj :=
  { intent_framing := some (.jstr "NOISE")
  , recommended_action := some (.jstr "No action: not about the brand.")
  , urgency := some (.jstr "low")
  , escalation_team := some (.jarr [])
  , rationale := some (.jstr "Excluded: content does not reference the brand; treated as unrelated homonym/noise.")
  , no_regret_move := some (.jstr "Monitor briefly for any brand-specific mention.") }

/-! ## init_db.py: schema of `items_raw` (DDL, lines 11-31) -/

/-- A table constraint appearing in the DDL. -/
inductive TableConstraint where
  | primaryKeyAuto (col : String) : TableConstraint
  | uniqueCols (cols : List String) : TableConstraint
deriving DecidableEq

/-- The constraints declared on `items_raw` by the DDL in init_db.py:
`id INTEGER PRIMARY KEY AUTOINCREMENT` and `UNIQUE(source, source_item_id)`. -/
def items_raw_constraints : List TableConstraint :=
  [.primaryKeyAuto "id", .uniqueCols ["source", "source_item_id"]]

/-! ## collect_rss.py: ingest filter and dedup (`collect_rss`, lines 82-165) -/

/-- A row of `items_raw` (the `metadata_json` column, an opaque JSON blob
never read back by the pipeline stages, is omitted).  `published_at` is
modelled as a UTC epoch timestamp. -/
structure RawRow where
  id : Nat
  source : String
  source_item_id : String
  brand : String
  title : String
  url : String
  content : String
  published_at : Int
deriving DecidableEq

/-- A candidate record from a feed entry, with the fields `collect_rss`
reads (`none` = key absent).  `published_parsed` / `updated_parsed` hold
the already-parsed UTC timestamp when feedparser could parse the date. -/
structure Entry where
  title : Option String := none
  link : Option String := none
  eid : Option String := none
  guid : Option String := none
  summary : Option String := none
  description : Option String := none
  published_parsed : Option Int := none
  updated_parsed : Option Int := none
deriving DecidableEq

/-- `_parse_entry_datetime` (collect_rss.py lines 21-29): first of
`published_parsed`, `updated_parsed` that is present. -/
def parse_entry_datetime (e : Entry) : Option Int :=
  match e.published_parsed with
  | some t => some t
  | none => e.updated_parsed

/-- The observe-stage configuration threaded into the filter: the resolved
brand string (`get_brand`, already stripped), the configured
`observe.keywords.brand_terms` list, and the publication cutoff
(`now - days_back`) as an epoch timestamp. -/
structure ObserveCfg where
  brand : String
  brand_terms : List String
  cutoff : Int
deriving DecidableEq

/-- The stable external identifier of an entry
(`(entry.get("id") or entry.get("guid") or link).strip()`, line 91,
where `link` is the stripped `entry.get("link")`). -/
def entry_key (e : Entry) : String :=
  pyStrip (pyOrStr e.eid (pyOrStr e.guid (pyStrip (pyOrStr e.link ""))))

/-- `text = (entry.get("title", "") + " " + entry.get("summary", "")).lower()`
(lines 94-96). -/
def entryText (e : Entry) : String :=
  pyLower ((e.title.getD "") ++ " " ++ (e.summary.getD ""))

/-- Membership test performed before insert (lines 134-140):
`SELECT 1 FROM items_raw WHERE source=? AND source_item_id=?`. -/
def hasKey (tbl : List RawRow) (src sid : String) : Bool :=
  tbl.any (fun r => r.source == src && r.source_item_id == sid)

/-- Next AUTOINCREMENT id for `items_raw`. -/
def nextRawId (tbl : List RawRow) : Nat :=
  (tbl.foldl (fun m r => max m r.id) 0) + 1

/-- One iteration of the per-entry loop of `collect_rss`
(collect_rss.py lines 83-165): title/link presence check, keyword filter,
publication-date filter, dedup on `(source, source_item_id)`, then insert.
Returns the updated table and whether a row was inserted. -/
def collect_entry (cfg : ObserveCfg) (tbl : List RawRow) (e : Entry) : List RawRow × Bool :=
  let title := pyStrip (pyOrStr e.title "")
  let link := pyStrip (pyOrStr e.link "")
  if title.data.isEmpty || link.data.isEmpty then (tbl, false)
  else
    let source_item_id := entry_key e
    let text := entryText e
    let brand := pyLower cfg.brand
    let brand_terms := brand :: cfg.brand_terms
    if !brand.data.isEmpty && !(strContains text brand) then (tbl, false)
    else
      let brand_matches := brand_terms.countP (fun t => strContains text (pyLower t))
      if brand_matches < 1 then (tbl, false)
      else if (parse_entry_datetime e).isNone then (tbl, false)
      else
        let published_dt := (parse_entry_datetime e).getD 0
        if published_dt < cfg.cutoff then (tbl, false)
        else
          let snippet := normWs (pyStrip (pyOrStr e.summary (pyOrStr e.description "")))
          if hasKey tbl "rss" source_item_id then (tbl, false)
          else
            (tbl ++ [{ id := nextRawId tbl
                     , source := "rss"
                     , source_item_id := source_item_id
                     , brand := pyOrStr (some cfg.brand) brand
                     , title := title
                     , url := link
                     , content := snippet
                     , published_at := published_dt }], true)

/-! ## orchestrator.py and collect_rss.main: early-abort wiring -/

/-- The steps the orchestrator can execute (orchestrator.py `main`). -/
inductive OStep where
  | initdb
  | collect
  | exportRaw
  | orient
  | exportOrient
  | decideStep
  | exportDecide
  | act
deriving DecidableEq

/-- The orchestrator's skip flags (its CLI arguments). -/
structure OFlags where
  skip_init : Bool := false
  skip_collect : Bool := false
  skip_export_raw : Bool := false
  skip_orient : Bool := false
deriving DecidableEq

/-- The return value of `collect_rss.main` (collect_rss.py lines 172-177):
the function computes `n = collect_rss(cfg)` and prints it, but has no
`return` statement, so it returns Python `None` whatever the count of
newly collected items was. -/
def collect_rss_main_ret (_new_items : Nat) : Option Nat := none

/-- Python `n == 0` where `n` is the (optional) value returned by the
collect step; `None == 0` is `False`. -/
def pyEqZero : Option Nat → Bool
  | some n => n == 0
  | none => false

/-- The list of steps executed by `orchestrator.main`
(orchestrator.py lines 72-110): init, collect, then — unless the early
return fires on `n == 0` — export raw, orient (+ its export), decide
(+ its export) and act. -/
def orchestrator_steps (flags : OFlags) (collect_ret : Option Nat) : List OStep :=
  let tail :=
    (if flags.skip_export_raw then [] else [OStep.exportRaw]) ++
    (if flags.skip_orient then [] else [OStep.orient, OStep.exportOrient]) ++
    [OStep.decideStep, OStep.exportDecide, OStep.act]
  (if flags.skip_init then [] else [OStep.initdb]) ++
  (if flags.skip_collect then tail
   else [OStep.collect] ++ (if pyEqZero collect_ret then [] else tail))

/-! ## Generic executable list helpers (sorting, dedup, chunking) -/

/-- Insert into a sorted list: `le a b = true` means `a` may precede `b`.
Stable for ties when `le` is reflexive on them (matching Python's stable
`sorted` and SQL ORDER BY with a total key). -/
def insertSorted (le : α → α → Bool) (a : α) : List α → List α
  | [] => [a]
  | b :: bs => if le a b then a :: b :: bs else b :: insertSorted le a bs

/-- Insertion sort by a boolean comparison. -/
def insSortBy (le : α → α → Bool) : List α → List α
  | [] => []
  | a :: as => insertSorted le a (insSortBy le as)

/-- Keep the first occurrence of each key, in order (the `seen`-set loop of
`fetch_latest_items`). -/
def dedupByKeyAux (key : α → β) [DecidableEq β] (seen : List β) : List α → List α
  | [] => []
  | x :: xs =>
    if key x ∈ seen then dedupByKeyAux key seen xs
    else x :: dedupByKeyAux key (key x :: seen) xs

/-- `dedupByKeyAux` starting from an empty seen-set. -/
def dedupByKey (key : α → β) [DecidableEq β] (l : List α) : List α :=
  dedupByKeyAux key [] l

/-- Fuel-driven chunking helper (structural recursion on the fuel). -/
def chunkFuel (n : Nat) : Nat → List α → List (List α)
  | 0, l => if l.isEmpty then [] else [l]
  | _ + 1, [] => []
  | fuel + 1, x :: xs => (x :: xs.take (n - 1)) :: chunkFuel n fuel (xs.drop (n - 1))

/-- `[items[i:i+n] for i in range(0, len(items), n)]`. -/
def chunkList (n : Nat) (l : List α) : List (List α) :=
  chunkFuel n l.length l

/-! ## ooda_orient.py: selector and run -/

/-- A row of `items_orient`.  The opaque `orient_json` blob is abstracted
to its `$.severity` field, the only part of it the Decide selector reads
(`none` models an absent or non-numeric severity, which SQLite's
`COALESCE(CAST(... AS REAL), 0)` maps to `0`). -/
structure OrientRow where
  id : Nat
  raw_item_id : Nat
  brand : String
  severity : Option ℚ
deriving DecidableEq

/-- `title_norm` of `fetch_latest_items` (ooda_orient.py lines 41-45):
strip, lower-case, and drop a trailing `" - Source"` tail
(`rsplit(" - ", 1)[0]`). -/
def titleNorm (t : String) : String :=
  let s := pyLower (pyStrip t)
  let parts := pySplitOn s " - "
  if parts.length ≤ 1 then s else pyJoin " - " parts.dropLast

/-- `fetch_latest_items` (ooda_orient.py lines 20-50): raw items with no
`items_orient` row (left-join predicate `o.id IS NULL`), ordered by
`r.id DESC`, optionally limited, then deduplicated by normalized title
keeping the first (most recent) representative. -/
def fetch_latest_items (raws : List RawRow) (orients : List OrientRow) (limit : Nat) :
    List RawRow :=
  let pending := raws.filter (fun r => !(orients.any (fun o => o.raw_item_id == r.id)))
  let rows_raw := insSortBy (fun a b => Nat.ble b.id a.id) pending
  let rows_raw := if 0 < limit then rows_raw.take limit else rows_raw
  dedupByKey (fun r => titleNorm r.title) rows_raw

/-- One item of a batched Orient service response: the echoed correlation
id (`none` models an absent or non-matching id) and the severity inside
the produced `orient_json`. -/
structure OrientOut where
  item_id : Option Nat := none
  severity : Option ℚ := none
deriving DecidableEq

/-- The Orient stage run (`ooda_orient.main`, lines 161-193): select with
`fetch_latest_items` (limit 0), chunk into batches of 5, call the service
per batch (`respond`; `none` = the batch call raised and is dropped),
re-associate echoed `item_id`s with the dispatched batch discarding
unknown ids, and insert one `items_orient` row per matched result.
Results are modelled in submission order; the code collects them in
completion order, which none of the verified properties depends on.
Returns the inserted rows, with ids numbered from `nid`. -/
def orient_run (raws : List RawRow) (orients : List OrientRow)
    (respond : List RawRow → Option (List OrientOut)) (nid : Nat) : List OrientRow :=
  let sel := fetch_latest_items raws orients 0
  let batches := chunkList 5 sel
  let results := batches.filterMap (fun b => (respond b).map (fun outs => (b, outs)))
  let pairs := results.flatMap (fun bo =>
    bo.2.filterMap (fun o =>
      match o.item_id with
      | some iid =>
        match bo.1.find? (fun it => it.id == iid) with
        | some item => some (item, o)
        | none => none
      | none => none))
  pairs.enum.map (fun p =>
    { id := nid + p.1
    , raw_item_id := p.2.1.id
    , brand := p.2.1.brand
    , severity := p.2.2.severity })

/-! ## ooda_decide.py: selector and run -/

/-- A record returned by `fetch_recent_orient_with_raw`: an orient row
joined with its raw item.  Rows whose raw item is missing or out of the
recency window are filtered by the `WHERE` clause, so the raw columns are
always present here. -/
structure JoinedRec where
  orient_id : Nat
  raw_item_id : Nat
  severity : Option ℚ
  title : String
  url : String
  content : String
deriving DecidableEq

/-- The ORDER BY key
`COALESCE(CAST(json_extract(o.orient_json, '$.severity') AS REAL), 0)`. -/
def sevKey (rec : JoinedRec) : ℚ := rec.severity.getD 0

/-- `ORDER BY severity DESC, o.id DESC` as a boolean comparison. -/
def recLe (a b : JoinedRec) : Bool :=
  decide (sevKey b < sevKey a) ||
    (sevKey a == sevKey b && Nat.ble b.orient_id a.orient_id)

/-- `fetch_recent_orient_with_raw` (ooda_decide.py lines 38-66): orient
rows joined with their raw item, kept when the raw item's `published_at`
is within the recency window (`cutoff`) and the orient row's brand
matches, ordered by severity then id descending, limited. -/
def fetch_recent_orient_with_raw (raws : List RawRow) (orients : List OrientRow)
    (brand : String) (cutoff : Int) (limit : Nat) : List JoinedRec :=
  let joined := orients.filterMap (fun o =>
    match raws.find? (fun r => r.id == o.raw_item_id) with
    | some r =>
      if (decide (cutoff ≤ r.published_at) && o.brand == brand) then
        some { orient_id := o.id, raw_item_id := o.raw_item_id, severity := o.severity
             , title := r.title, url := r.url, content := r.content }
      else none
    | none => none)
  (insSortBy recLe joined).take limit

/-- A row of `items_decide` (the AUTOINCREMENT `id`, unused by every
pipeline read path, is omitted; `decide_json` is kept structured). -/
structure DecideRow where
  raw_item_id : Nat
  orient_id : Nat
  brand : String
  decide_obj : DecideObj

/-- `already_decided` (ooda_decide.py lines 69-72). -/
def already_decided (decides : List DecideRow) (oid : Nat) : Bool :=
  decides.any (fun d => d.orient_id == oid)

/-- `" ".join([title or "", content or "", url or ""]).lower()`
(ooda_decide.py line 270). -/
def text_join (rec : JoinedRec) : String :=
  pyLower (rec.title ++ " " ++ rec.content ++ " " ++ rec.url)

/-- The row inserted by the brand-relevance short-circuit. -/
def noiseRow (brand : String) (rec : JoinedRec) : DecideRow :=
  { raw_item_id := rec.raw_item_id, orient_id := rec.orient_id
  , brand := brand, decide_obj := noise_record }

/-- The short-circuit condition of the pre-dispatch loop
(`if brand_lower and brand_lower not in text_join`). -/
def noiseCase (brand : String) (rec : JoinedRec) : Bool :=
  !(pyLower brand).data.isEmpty && !(strContains (text_join rec) (pyLower brand))

/-- The pre-dispatch loop of `ooda_decide.main` (lines 250-287): walk the
fetched records; skip the ones already decided (the check sees this run's
own uncommitted noise inserts, hence `decides ++ acc.1`); insert a fixed
NOISE row when the brand does not occur in title+content+url; otherwise
queue for dispatch.  Returns (noise rows inserted, records to process). -/
def decide_phase1 (decides : List DecideRow) (brand : String) (records : List JoinedRec) :
    List DecideRow × List JoinedRec :=
  records.foldl (fun acc rec =>
    if already_decided (decides ++ acc.1) rec.orient_id then acc
    else if noiseCase brand rec then (acc.1 ++ [noiseRow brand rec], acc.2)
    else (acc.1, acc.2 ++ [rec])) ([], [])

/-- The Decide stage run (`ooda_decide.main`, lines 232-323): fetch the 20
most severe recent orient records, run the pre-dispatch loop, call the
service per queued record (`respond`; `none` = the call raised and the
record is dropped for this run), normalize each response with
`decide_one`'s validation, and insert the results.  Returns the inserted
rows (service results modelled in submission order, see `orient_run`). -/
def decide_run (raws : List RawRow) (orients : List OrientRow) (decides : List DecideRow)
    (brand : String) (cutoff : Int) (respond : JoinedRec → Option DecideObj) :
    List DecideRow :=
  let records := fetch_recent_orient_with_raw raws orients brand cutoff 20
  let p := decide_phase1 decides brand records
  p.1 ++ p.2.filterMap (fun rec => (respond rec).map (fun obj =>
    { raw_item_id := rec.raw_item_id, orient_id := rec.orient_id, brand := brand
    , decide_obj := decide_one_normalize obj }))

/-! ## ooda_act.py: aggregation statistics (`compute_stats`, lines 138-197) -/

/-- A decided item as assembled by `fetch_full_ooda_view`
(ooda_act.py lines 101-132): every key is present in the dict, with
Python `None` modelled as `JVal.jnull`.  Fields not read by
`compute_stats` or the prompt sample are omitted.  Numeric values
(severities) are modelled as exact rationals. -/
structure VItem where
  intent_framing : JVal := .jnull
  urgency : JVal := .jnull
  narrative_category : JVal := .jnull
  reputational_risk : JVal := .jnull
  severity : JVal := .jnull
  title : JVal := .jnull
  url : JVal := .jnull
  recommended_action : JVal := .jnull

/-- `collections.Counter` over a list of strings, as a list of
(value, count) pairs in first-occurrence order. -/
def counterOf (l : List String) : List (String × Nat) :=
  (dedupByKey (fun s => s) l).map (fun s => (s, l.count s))

/-- Python `int(q)`: truncation toward zero. -/
def pyInt (q : ℚ) : ℤ := Int.tdiv q.num (q.den : ℤ)

/-- `math.floor` on an exact rational. -/
def floorQ (q : ℚ) : ℤ := Int.fdiv q.num (q.den : ℤ)

/-- Round to the nearest integer, ties to even (Python `round`). -/
def roundHalfEven (q : ℚ) : ℤ :=
  let f := floorQ q
  let r := q - (f : ℚ)
  if r < 1/2 then f
  else if (1/2 : ℚ) < r then f + 1
  else if f % 2 == 0 then f else f + 1

/-- Python `round(q, 2)` on the exact rational value (the code rounds the
IEEE double; the model rounds the exact quotient). -/
def pyRound2 (q : ℚ) : ℚ := ((roundHalfEven (q * 100) : ℚ)) / 100

/-- The `severity_stats` dict of `compute_stats`. -/
structure SevStats where
  min : Option ℤ
  max : Option ℤ
  avg : Option ℚ
deriving DecidableEq

/-- One entry of `top_by_severity` in the stats object. -/
structure TopItem where
  title : JVal
  url : JVal
  severity : JVal
  intent_framing : JVal
  recommended_action : JVal

/-- The dict returned by `compute_stats`. -/
structure ActStats where
  items_total : Nat
  intent_distribution : List (String × Nat)
  urgency_distribution : List (String × Nat)
  category_distribution : List (String × Nat)
  reputational_risk_distribution : List (String × Nat)
  severity_stats : SevStats
  top_by_severity : List TopItem
  priority_candidates_count : Nat

/-- `compute_stats` (ooda_act.py lines 138-197): distribution counters
with per-field falsy defaults, min/max/avg over the numeric severities
(`isinstance(..., (int, float))`; none numeric ⇒ `None` stats), the top 5
items by severity (stable descending sort over the numeric-severity
items), and the priority heuristic
`(intent == "THREAT" and urg in ["high", "medium"]) elif (numeric and
sev >= 60)` appending each item at most once. -/
def compute_stats (items : List VItem) : ActStats :=
  let intents := items.map (fun i => pyUpper (pyStr (pyOrJ i.intent_framing (.jstr "NEUTRAL"))))
  let urgencies := items.map (fun i => pyLower (pyStr (pyOrJ i.urgency (.jstr "low"))))
  let cats := items.map (fun i => pyStr (pyOrJ i.narrative_category (.jstr "other")))
  let risks := items.map (fun i => pyStr (pyOrJ i.reputational_risk (.jstr "low")))
  let severities := items.filterMap (fun i => numVal i.severity)
  let severity_stats : SevStats :=
    match severities with
    | [] => { min := none, max := none, avg := none }
    | s :: ss =>
      { min := some (pyInt (ss.foldl Min.min s))
      , max := some (pyInt (ss.foldl Max.max s))
      , avg := some (pyRound2 (((s :: ss).foldl (· + ·) 0) / ((s :: ss).length : ℚ))) }
  let top := (insSortBy
      (fun a b => decide ((numVal b.severity).getD 0 ≤ (numVal a.severity).getD 0))
      (items.filter (fun i => (numVal i.severity).isSome))).take 5
  let priority := items.foldl (fun acc it =>
    let intent := pyUpper (pyStr (pyOrJ it.intent_framing (.jstr "NEUTRAL")))
    let urg := pyLower (pyStr (pyOrJ it.urgency (.jstr "low")))
    let sev := numVal it.severity
    if intent == "THREAT" && (["high", "medium"].contains urg) then acc ++ [it]
    else if (match sev with | some q => decide ((60 : ℚ) ≤ q) | none => false) then acc ++ [it]
    else acc) []
  { items_total := items.length
  , intent_distribution := counterOf intents
  , urgency_distribution := counterOf urgencies
  , category_distribution := counterOf cats
  , reputational_risk_distribution := counterOf risks
  , severity_stats := severity_stats
  , top_by_severity := top.map (fun x =>
      { title := x.title, url := x.url, severity := x.severity
      , intent_framing := x.intent_framing, recommended_action := x.recommended_action })
  , priority_candidates_count := priority.length }

/-! ## ooda_act.py: prompt and persistence (`build_act_prompt`, `main`)

The f-string template of `build_act_prompt` (lines 237-320), rendered
with its literal text split around the two interpolation points
(`\x7bbrand\x7d` and the trailing `\x7bjson.dumps(payload, ...)\x7d`) and around
the GATING RULES block.  The serialized payload (stats + items sample +
rules) is abstracted as an opaque string argument. -/

def ACT_PRE1 : String :=
  "\nROLE: You are the ACT module of an OODA Loop AI early-warning system for brand reputation monitoring.\nYou are an executive coordinator producing an action package.\n\nFRAMEWORK CONSTRAINT (ACT ONLY):\n- This is ACT: convert prior decisions into an executable plan for the next 4 hours.\n- Do NOT reclassify items. Do NOT invent new facts. Use ONLY the input JSON provided (stats + items_sample + rules).\n- If information is insufficient, explicitly choose conservative 'no-regret' actions and monitoring.\n\nBRAND: "

def ACT_PRE2 : String :=
  "\n\nOBJECTIVE:\nProduce ONE aggregated action package for the next 4 hours, grounded in the input data and consistent with ORIENT+DECIDE outputs.\n\nCRITICAL INTERPRETATION RULE:\n- If the item describes enforcement already happening (seizure/crackdown/counterfeit removal) and the brand is not accused, treat as DEFENSE: do NOT recommend legal escalation against the brand. Focus on monitoring + optional reputation reinforcement.\n\n"

def ACT_GATING : String :=
  "GATING RULES (avoid overreaction):\n- If there are ZERO items with intent_framing=\"THREAT\", then:\n  - comms_package.external_holding_statement MUST be \"not needed\"\n  - action_plan_next_4_hours MUST NOT include Legal unless an item explicitly indicates legal exposure for the brand."

def ACT_POST : String :=
  "\n- If intent_framing=\"DEFENSE\", owner_team should be [\"PR\",\"Social\"] or empty escalation; Legal only if brand is accused.\n- Keep actions proportional to urgency (low=monitor/log, medium=prepare, high=activate crisis response).\n\nOUTPUT RULES:\n- Return ONLY valid JSON matching EXACTLY the schema below.\n- Keep executive_summary to max 6 short bullets.\n- In top_items_by_severity include max 5 items, each as a compact object with title, url, severity, intent_framing, urgency.\n- In action_plan_next_4_hours include 3 to 6 actions maximum.\n- Every action must reference a specific item_title from items_sample (or \"cross-cutting\").\n\nREQUIRED JSON SCHEMA:\n\x7b\n  \"ooda_timeline\": \x7b\n    \"observe\": \"what was monitored and why\",\n    \"orient\": \"how items were classified and scored\",\n    \"decide\": \"how intent was determined and decisions made\",\n" ++
  "    \"act\": \"what actions will be executed next\"\n  \x7d,\n  \"executive_summary\": [\"max 6 bullets\"],\n  \"situation_overview\": \x7b\n    \"top_themes\": [\"...\"],\n    \"overall_risk_level\": \"low|medium|high\",\n    \"what_changed\": \"1-2 sentences\",\n    \"why_now\": \"1-2 sentences\"\n  \x7d,\n  \"decision_intelligence\": \x7b\n    \"intent_distribution\": \x7b\x7d,\n    \"urgency_distribution\": \x7b\x7d,\n    \"top_items_by_severity\": []\n  \x7d,\n  \"action_plan_next_4_hours\": [\n    \x7b\n      \"priority\": 1,\n      \"item_title\": \"...\",\n      \"intent_framing\": \"THREAT|DEFENSE|OPPORTUNITY|NEUTRAL|NOISE\",\n      \"urgency\": \"low|medium|high\",\n      \"objective\": \"...\",\n      \"owner_team\": [\"PR\",\"Legal\",\"Security\",\"Exec\",\"Social\"],\n      \"first_3_steps\": [\"...\",\"...\",\"...\"],\n      \"success_criteria\": [\"...\"],\n" ++
  "      \"notes\": \"short\"\n    \x7d\n  ],\n  \"comms_package\": \x7b\n    \"internal_message_draft\": \"short message to internal stakeholders\",\n    \"external_holding_statement\": \"only if THREAT exists; otherwise 'not needed'\",\n    \"optional_reinforcement_message\": \"useful especially for DEFENSE cases\"\n  \x7d,\n  \"monitoring_and_triggers\": \x7b\n    \"what_to_watch\": [\"...\"],\n    \"update_frequency\": \"e.g. every 60 minutes\",\n    \"escalation_triggers\": [\"...\"],\n    \"de_escalation_triggers\": [\"...\"]\n  \x7d,\n  \"risks_and_liability\": \x7b\n    \"highest_risk_if_followed_blindly\": \"1-2 sentences\",\n    \"human_judgment_overrides\": [\"...\"]\n  \x7d\n\x7d\n\nINPUT JSON (use as the ONLY source of truth):\n"

/-- `build_act_prompt` (ooda_act.py lines 200-320): the rendered
f-string, `.strip()`-ed. -/
def build_act_prompt (brand payload : String) : String :=
  pyStrip (ACT_PRE1 ++ brand ++ ACT_PRE2 ++ ACT_GATING ++ ACT_POST ++ payload ++ "\n")

/-- The record persisted to `runs_act` by `ooda_act.main`
(lines 470-495): the parsed service response is stored under `"act"`
unchanged, next to the computed stats (the constant `meta` block and the
`annex_data` echo of the input items are omitted). -/
structure ActFull where
  act : JVal
  computed_stats : ActStats

/-- `ooda_act.main`, persistence step: `act_core = json.loads(resp...)`
is embedded verbatim in the stored document. -/
def act_full (items : List VItem) (act_core : JVal) : ActFull :=
  { act := act_core, computed_stats := compute_stats items }

/-- Python `d.get(k)` on a JSON object. -/
def jGet (v : JVal) (k : String) : Option JVal :=
  match v with
  | .jobj kvs => (kvs.find? (fun kv => kv.1 == k)).map (fun kv => kv.2)
  | _ => none

/-! ## Helper lemmas about the Decide normalization -/

/-- What `decide_one` stores as intent_framing. -/
theorem decide_one_intent_eq (obj : DecideObj) :
    (decide_one_normalize obj).intent_framing =
      some (.jstr (if INTENT_ENUM.contains
          (pyUpper (pyStrip (pyStr (obj.intent_framing.getD (.jstr ""))))) then
            pyUpper (pyStrip (pyStr (obj.intent_framing.getD (.jstr ""))))
          else "NEUTRAL")) := by
  unfold decide_one_normalize
  simp only [apply_ite DecideObj.intent_framing, apply_ite DecideObj.urgency,
    apply_ite DecideObj.escalation_team, ite_self]

/-- What `decide_one` stores as urgency. -/
theorem decide_one_urgency_eq (obj : DecideObj) :
    (decide_one_normalize obj).urgency =
      if URGENCY_VALUES.contains (pyLower (pyStrip (pyStr (obj.urgency.getD (.jstr ""))))) then
        obj.urgency
      else some (.jstr "low") := by
  unfold decide_one_normalize
  simp only [apply_ite DecideObj.urgency, ite_self]

/-- What `decide_one` stores as escalation_team. -/
theorem decide_one_team_eq (obj : DecideObj) :
    (decide_one_normalize obj).escalation_team =
      if isPyList (obj.escalation_team.getD (.jarr [])) then obj.escalation_team
      else some (.jarr []) := by
  unfold decide_one_normalize
  simp only [apply_ite DecideObj.escalation_team, ite_self]

/-- The stored escalation_team is always a list. -/
theorem decide_one_team_is_list (obj : DecideObj) :
    isPyList ((decide_one_normalize obj).escalation_team.getD (.jarr [])) = true := by
  rw [decide_one_team_eq]
  by_cases h : isPyList (obj.escalation_team.getD (.jarr [])) = true
  · rw [if_pos h]
    exact h
  · rw [if_neg h]
    rfl

/-! ## Claim C4: the zero-new-items early abort -/

/-- C4: the claim says a top-level orchestration run aborts before the
export/Orient/Decide/Act steps when the ingest stage yields zero new
records, the compared value being the collection step's count of new
items.  The code contradicts this: `collect_rss.main` has no `return`
statement, so the orchestrator compares Python `None` with `0`, which is
never true, and every downstream step still runs when zero items were
collected. -/
theorem c4_orchestrator_never_aborts (k : Nat) :
    pyEqZero (collect_rss_main_ret k) = false ∧
    orchestrator_steps {} (collect_rss_main_ret 0) =
      [OStep.initdb, OStep.collect, OStep.exportRaw, OStep.orient,
       OStep.exportOrient, OStep.decideStep, OStep.exportDecide, OStep.act] :=
  ⟨rfl, rfl⟩

/-! ## Claim C1: Decide response normalization -/

/-- C1, counterexample: the service answers with urgency `"HIGH"`; its
lower-casing is in the whitelist, so `decide_one` keeps the raw value,
and the record persisted by the Decide run stores urgency `"HIGH"`,
which is not in `\x7blow, medium, high\x7d`. -/
def c1_bad_resp : DecideObj :=
  { intent_framing := some (.jstr "THREAT"), urgency := some (.jstr "HIGH")
  , escalation_team := some (.jarr []) }

/-- A raw item used to drive concrete runs. -/
def demoRaw : RawRow :=
  { id := 1, source := "rss", source_item_id := "u1", brand := "acme"
  , title := "acme news", url := "http://e.com/a", content := "about acme"
  , published_at := 100 }

/-- An orient row for `demoRaw`. -/
def demoOrient : OrientRow :=
  { id := 1, raw_item_id := 1, brand := "acme", severity := some 50 }

/-- C1 is false as stated: a Decide run over one oriented item whose
service response carries urgency `"HIGH"` persists a row whose stored
urgency is the raw string `"HIGH"`, outside `\x7blow, medium, high\x7d`. -/
theorem c1_counterexample :
    (decide_run [demoRaw] [demoOrient] [] "acme" 0 (fun _ => some c1_bad_resp)).map
        (fun r => r.decide_obj.urgency) = [some (.jstr "HIGH")] ∧
    "HIGH" ∉ URGENCY_VALUES := by
  constructor
  · rfl
  · decide

/-- C1 (amended): `decide_one` always stores a trimmed upper-cased
intent_framing inside the 5-value enum (out-of-enum values are coerced to
NEUTRAL); an urgency whose trimmed lower-casing is outside
`\x7blow, medium, high\x7d` is coerced to `"low"`, while otherwise the raw service
value is kept, so the stored urgency is only guaranteed to be in the enum
up to trimming and case; an escalation_team that is not a list is coerced
to the empty list, so the stored team is always a list. -/
theorem c1_normalization (obj : DecideObj) :
    (∃ s, (decide_one_normalize obj).intent_framing = some (JVal.jstr s) ∧ s ∈ INTENT_ENUM) ∧
    pyLower (pyStrip (pyStr ((decide_one_normalize obj).urgency.getD (.jstr "")))) ∈ URGENCY_VALUES ∧
    (pyUpper (pyStrip (pyStr (obj.intent_framing.getD (.jstr "")))) ∉ INTENT_ENUM →
      (decide_one_normalize obj).intent_framing = some (.jstr "NEUTRAL")) ∧
    (pyLower (pyStrip (pyStr (obj.urgency.getD (.jstr "")))) ∉ URGENCY_VALUES →
      (decide_one_normalize obj).urgency = some (.jstr "low")) ∧
    (isPyList (obj.escalation_team.getD (.jarr [])) = false →
      (decide_one_normalize obj).escalation_team = some (.jarr [])) ∧
    isPyList ((decide_one_normalize obj).escalation_team.getD (.jarr [])) = true := by
  refine ⟨?_, ?_, ?_, ?_, ?_, decide_one_team_is_list obj⟩
  · rw [decide_one_intent_eq]
    by_cases h : INTENT_ENUM.contains
        (pyUpper (pyStrip (pyStr (obj.intent_framing.getD (.jstr ""))))) = true
    · rw [if_pos h]
      exact ⟨_, rfl, List.mem_of_elem_eq_true h⟩
    · rw [if_neg h]
      exact ⟨_, rfl, by decide⟩
  · rw [decide_one_urgency_eq]
    by_cases h : URGENCY_VALUES.contains
        (pyLower (pyStrip (pyStr (obj.urgency.getD (.jstr ""))))) = true
    · rw [if_pos h]
      exact List.mem_of_elem_eq_true h
    · rw [if_neg h]
      decide
  · intro hout
    rw [decide_one_intent_eq,
      if_neg (fun hc => hout (List.mem_of_elem_eq_true hc))]
  · intro hout
    rw [decide_one_urgency_eq,
      if_neg (fun hc => hout (List.mem_of_elem_eq_true hc))]
  · intro hnot
    rw [decide_one_team_eq, if_neg (by rw [hnot]; exact Bool.false_ne_true)]

/-- C1 witness: the amended theorem applied to the empty response
object: the absent urgency trims/lowers to `""`, which is outside the
whitelist, so the stored urgency is the coerced `"low"`. -/
theorem c1_normalization_witness :
    (pyLower (pyStrip (pyStr ((({} : DecideObj)).urgency.getD (.jstr "")))) ∉ URGENCY_VALUES) ∧
    (decide_one_normalize {}).urgency = some (.jstr "low") :=
  ⟨by decide, (c1_normalization {}).2.2.2.1 (by decide)⟩

/-! ## Claim C3: NEUTRAL/NOISE rows and escalation_team -/

/-- C3, counterexample input: a service response with intent NEUTRAL and
a non-empty escalation team. -/
def c3_bad_resp : DecideObj :=
  { intent_framing := some (.jstr "NEUTRAL"), urgency := some (.jstr "low")
  , escalation_team := some (.jarr [.jstr "PR"]) }

/-- C3 is false as stated: a Decide run whose service response returns
NEUTRAL together with the non-empty team `["PR"]` persists a NEUTRAL row
whose stored escalation_team is `["PR"]`, not the empty list. -/
theorem c3_counterexample :
    (decide_run [demoRaw] [demoOrient] [] "acme" 0 (fun _ => some c3_bad_resp)).map
        (fun r => (r.decide_obj.intent_framing, r.decide_obj.escalation_team)) =
      [(some (.jstr "NEUTRAL"), some (.jarr [.jstr "PR"]))] ∧
    (JVal.jarr [.jstr "PR"]) ≠ .jarr [] := by
  constructor
  · rfl
  · intro h
    exact absurd (JVal.jarr.inj h) (by simp)

/-- C3 (amended): the escalation-empty invariant holds for the rows
written by the pre-dispatch brand-relevance short-circuit (their intent
is NOISE and their team is the empty list), and `decide_one`'s
normalization guarantees the stored team is a list — but it does not
empty the team of a NEUTRAL/NOISE service response, so for
service-produced rows the invariant is not enforced. -/
theorem c3_escalation_guarantees (brand : String) (rec : JoinedRec) (obj : DecideObj) :
    (noiseRow brand rec).decide_obj.intent_framing = some (.jstr "NOISE") ∧
    (noiseRow brand rec).decide_obj.escalation_team = some (.jarr []) ∧
    isPyList ((decide_one_normalize obj).escalation_team.getD (.jarr [])) = true :=
  ⟨rfl, rfl, decide_one_team_is_list obj⟩

/-! ## Helper lemma: complete case analysis of `collect_entry` -/

/-- The per-entry ingest step either leaves the table unchanged and
reports no insert, or appends exactly one row carrying the entry's data,
in which case the key was fresh, the (non-empty) brand occurred in the
entry's text, and at least one term of `[brand] + brand_terms` matched. -/
theorem collect_entry_cases (cfg : ObserveCfg) (tbl : List RawRow) (e : Entry) :
    collect_entry cfg tbl e = (tbl, false) ∨
    (∃ d, parse_entry_datetime e = some d ∧
      collect_entry cfg tbl e =
        (tbl ++ [{ id := nextRawId tbl
                 , source := "rss"
                 , source_item_id := entry_key e
                 , brand := pyOrStr (some cfg.brand) (pyLower cfg.brand)
                 , title := pyStrip (pyOrStr e.title "")
                 , url := pyStrip (pyOrStr e.link "")
                 , content := normWs (pyStrip (pyOrStr e.summary (pyOrStr e.description "")))
                 , published_at := d }], true) ∧
      hasKey tbl "rss" (entry_key e) = false ∧
      ((pyLower cfg.brand).data.isEmpty = false →
        strContains (entryText e) (pyLower cfg.brand) = true) ∧
      1 ≤ (pyLower cfg.brand :: cfg.brand_terms).countP
          (fun t => strContains (entryText e) (pyLower t))) := by
  simp only [collect_entry]
  split_ifs with h1 h2 h3 h4 h5 h6
  · exact Or.inl rfl
  · exact Or.inl rfl
  · exact Or.inl rfl
  · exact Or.inl rfl
  · exact Or.inl rfl
  · exact Or.inl rfl
  · refine Or.inr ⟨(parse_entry_datetime e).getD 0, ?_, rfl, ?_, ?_, ?_⟩
    · rcases hpd : parse_entry_datetime e with _ | d
      · rw [hpd] at h4
        exact absurd rfl h4
      · rfl
    · exact eq_false_of_ne_true h6
    · intro hne
      rcases Bool.and_eq_false_iff.mp (eq_false_of_ne_true h2) with h | h
      · rw [Bool.not_eq_false'] at h
        rw [hne] at h
        exact absurd h Bool.false_ne_true
      · rwa [Bool.not_eq_false'] at h
    · exact Nat.not_lt.mp h3

/-! ## Claim C2: ingest dedup on (source, source_item_id) -/

/-- C2: ingesting two candidate records with the same stable external
identifier (first non-empty of id, guid, url) into a table with no row
under that key yields exactly one matching row, the second attempt being
a silent no-op; and the DDL declares UNIQUE(source, source_item_id). -/
theorem c2_dedup (cfg : ObserveCfg) (tbl : List RawRow) (e1 e2 : Entry) (k : String)
    (hk1 : entry_key e1 = k) (hk2 : entry_key e2 = k)
    (h0 : hasKey tbl "rss" k = false)
    (h1 : (collect_entry cfg tbl e1).2 = true) :
    ((collect_entry cfg tbl e1).1.filter
        (fun r => r.source == "rss" && r.source_item_id == k)).length = 1 ∧
    collect_entry cfg (collect_entry cfg tbl e1).1 e2 = ((collect_entry cfg tbl e1).1, false) ∧
    TableConstraint.uniqueCols ["source", "source_item_id"] ∈ items_raw_constraints := by
  rcases collect_entry_cases cfg tbl e1 with hcase | ⟨d, hpd, hins, hfresh, hq, hc⟩
  · rw [hcase] at h1
    exact absurd h1 Bool.false_ne_true
  set row : RawRow :=
    { id := nextRawId tbl, source := "rss", source_item_id := entry_key e1
    , brand := pyOrStr (some cfg.brand) (pyLower cfg.brand)
    , title := pyStrip (pyOrStr e1.title ""), url := pyStrip (pyOrStr e1.link "")
    , content := normWs (pyStrip (pyOrStr e1.summary (pyOrStr e1.description "")))
    , published_at := d } with hrow
  have htbl : (collect_entry cfg tbl e1).1 = tbl ++ [row] := by rw [hins]
  have hkeyrow : (row.source == "rss" && row.source_item_id == k) = true := by
    simp [hrow, hk1]
  have hnew : hasKey (tbl ++ [row]) "rss" k = true := by
    unfold hasKey
    rw [List.any_append]
    unfold hasKey at h0
    rw [h0, Bool.false_or, List.any_cons, hkeyrow, Bool.true_or]
  refine ⟨?_, ?_, by decide⟩
  · rw [htbl, List.filter_append]
    have hnil : tbl.filter (fun r => r.source == "rss" && r.source_item_id == k) = [] := by
      rw [List.filter_eq_nil_iff]
      intro a ha hpa
      have hhas : hasKey tbl "rss" k = true := by
        unfold hasKey
        rw [List.any_eq_true]
        exact ⟨a, ha, hpa⟩
      rw [hhas] at h0
      exact Bool.false_ne_true h0.symm
    rw [hnil, List.filter_cons, if_pos hkeyrow]
    rfl
  · rw [htbl]
    rcases collect_entry_cases cfg (tbl ++ [row]) e2 with hcase2 | ⟨d2, _, _, hfresh2, _, _⟩
    · exact hcase2
    · rw [hk2, hnew] at hfresh2
      exact absurd hfresh2.symm Bool.false_ne_true

/-- C2 witness data: a feed configuration and two entries with the same
guid. -/
def c2cfg : ObserveCfg := { brand := "acme", brand_terms := ["news"], cutoff := 0 }

/-- First candidate record of the C2 witness. -/
def c2e1 : Entry :=
  { title := some "Acme in the news", link := some "http://n.example/a"
  , guid := some "g1", summary := some "acme news today", published_parsed := some 50 }

/-- Second candidate record of the C2 witness (same guid). -/
def c2e2 : Entry :=
  { title := some "Acme again", link := some "http://other.example/b"
  , guid := some "g1", summary := some "acme item", published_parsed := some 60 }

/-- C2 witness: both entries share the key `"g1"`, the table is empty,
the first entry is inserted, and the theorem's conclusions follow. -/
theorem c2_dedup_witness :
    (entry_key c2e1 = "g1" ∧ entry_key c2e2 = "g1" ∧ hasKey [] "rss" "g1" = false ∧
      (collect_entry c2cfg [] c2e1).2 = true) ∧
    (((collect_entry c2cfg [] c2e1).1.filter
        (fun r => r.source == "rss" && r.source_item_id == "g1")).length = 1 ∧
      collect_entry c2cfg (collect_entry c2cfg [] c2e1).1 c2e2 =
        ((collect_entry c2cfg [] c2e1).1, false) ∧
      TableConstraint.uniqueCols ["source", "source_item_id"] ∈ items_raw_constraints) :=
  ⟨⟨rfl, rfl, rfl, rfl⟩, c2_dedup c2cfg [] c2e1 c2e2 "g1" rfl rfl rfl rfl⟩

/-! ## Claim C7: the ingest keyword filter -/

/-- C7 counterexample configuration: brand `"Acme"`, one configured
keyword `"scandal"`. -/
def c7cfg : ObserveCfg := { brand := "Acme", brand_terms := ["scandal"], cutoff := 0 }

/-- C7 counterexample entry: mentions the brand, no configured keyword. -/
def c7entry : Entry :=
  { title := some "Acme expands operations", link := some "http://n.example/1"
  , summary := some "Growth plans announced", published_parsed := some 100 }

/-- C7 is false as stated: the keyword list the code counts over is
`[brand] + brand_terms`, so this record — whose text contains the brand
name but none of the configured `brand_terms` — is still inserted. -/
theorem c7_counterexample :
    (collect_entry c7cfg [] c7entry).2 = true ∧
    c7cfg.brand_terms.countP
      (fun t => strContains (entryText c7entry) (pyLower t)) = 0 :=
  ⟨rfl, rfl⟩

/-- C7 (amended): every inserted record's title+summary text contains the
(non-empty) monitored brand name, and at least one entry of the list
`[brand] + brand_terms` — a condition the brand itself always satisfies,
so containing a configured keyword is not actually required. -/
theorem c7_keyword_filter (cfg : ObserveCfg) (tbl : List RawRow) (e : Entry)
    (hb : cfg.brand ≠ "")
    (hins : (collect_entry cfg tbl e).2 = true) :
    strContains (entryText e) (pyLower cfg.brand) = true ∧
    1 ≤ (pyLower cfg.brand :: cfg.brand_terms).countP
        (fun t => strContains (entryText e) (pyLower t)) := by
  rcases collect_entry_cases cfg tbl e with hcase | ⟨d, _, _, _, hbrand, hcount⟩
  · rw [hcase] at hins
    exact absurd hins Bool.false_ne_true
  · have hdata : cfg.brand.data ≠ [] := by
      intro hnil
      exact hb (String.ext (by rw [hnil]))
    refine ⟨hbrand ?_, hcount⟩
    unfold pyLower
    cases hcb : cfg.brand.data with
    | nil => exact absurd hcb hdata
    | cons c cs => rfl

/-- C7 witness: the amended theorem applied to a concrete inserted
record. -/
theorem c7_keyword_filter_witness :
    (c7cfg.brand ≠ "" ∧ (collect_entry c7cfg [] c7entry).2 = true) ∧
    (strContains (entryText c7entry) (pyLower c7cfg.brand) = true ∧
      1 ≤ (pyLower c7cfg.brand :: c7cfg.brand_terms).countP
          (fun t => strContains (entryText c7entry) (pyLower t))) :=
  ⟨⟨by decide, rfl⟩, c7_keyword_filter c7cfg [] c7entry (by decide) rfl⟩

/-! ## Helper lemmas about sorting and the stats projections -/

/-- Membership in `insertSorted`. -/
theorem mem_insertSorted (le : α → α → Bool) (a x : α) (l : List α) :
    x ∈ insertSorted le a l ↔ x = a ∨ x ∈ l := by
  induction l with
  | nil => simp [insertSorted]
  | cons b bs ih =>
    simp only [insertSorted]
    split
    · simp [List.mem_cons]
    · simp only [List.mem_cons, ih]
      tauto

/-- Membership is preserved by the insertion sort. -/
theorem mem_insSortBy (le : α → α → Bool) (x : α) (l : List α) :
    x ∈ insSortBy le l ↔ x ∈ l := by
  induction l with
  | nil => exact Iff.rfl
  | cons a as ih =>
    simp only [insSortBy, mem_insertSorted, ih, List.mem_cons]

/-- Length of the append-if-any-of-two-conditions fold used for the
priority list. -/
theorem foldl_append_if_length (p q : α → Bool) (l : List α) (acc : List α) :
    (l.foldl (fun a it => if p it then a ++ [it] else if q it then a ++ [it] else a) acc).length
      = acc.length + l.countP (fun it => p it || q it) := by
  induction l generalizing acc with
  | nil => simp
  | cons x xs ih =>
    simp only [List.foldl_cons, List.countP_cons]
    by_cases hp : p x <;> by_cases hq : q x <;>
      simp [hp, hq, ih, List.length_append] <;> omega

/-- The priority counter of `compute_stats`, exposed. -/
theorem compute_stats_priority_eq (items : List VItem) :
    (compute_stats items).priority_candidates_count =
      (items.foldl (fun acc it =>
        if pyUpper (pyStr (pyOrJ it.intent_framing (.jstr "NEUTRAL"))) == "THREAT"
            && (["high", "medium"].contains (pyLower (pyStr (pyOrJ it.urgency (.jstr "low"))))) then
          acc ++ [it]
        else if (match numVal it.severity with
                 | some q => decide ((60 : ℚ) ≤ q)
                 | none => false) then acc ++ [it]
        else acc) []).length := rfl

/-- The severity stats of `compute_stats`, exposed. -/
theorem compute_stats_sevstats_eq (items : List VItem) :
    (compute_stats items).severity_stats =
      (match items.filterMap (fun i => numVal i.severity) with
       | [] => ({ min := none, max := none, avg := none } : SevStats)
       | s :: ss =>
         { min := some (pyInt (ss.foldl Min.min s))
         , max := some (pyInt (ss.foldl Max.max s))
         , avg := some (pyRound2 (((s :: ss).foldl (· + ·) 0) / ((s :: ss).length : ℚ))) }) := rfl

/-- The top-by-severity list of `compute_stats`, exposed. -/
theorem compute_stats_top_eq (items : List VItem) :
    (compute_stats items).top_by_severity =
      (((insSortBy
          (fun a b => decide ((numVal b.severity).getD 0 ≤ (numVal a.severity).getD 0))
          (items.filter (fun i => (numVal i.severity).isSome))).take 5).map (fun x =>
        { title := x.title, url := x.url, severity := x.severity
        , intent_framing := x.intent_framing
        , recommended_action := x.recommended_action })) := rfl

/-! ## Claim C8: the priority-candidate count -/

/-- The claim's THREAT-side priority condition: intent_framing equals
THREAT case-insensitively, and urgency is medium or high. -/
def threatUrgent (it : VItem) : Bool :=
  pyUpper (pyStr (pyOrJ it.intent_framing (.jstr "NEUTRAL"))) == "THREAT" &&
    (pyLower (pyStr (pyOrJ it.urgency (.jstr "low"))) == "medium" ||
     pyLower (pyStr (pyOrJ it.urgency (.jstr "low"))) == "high")

/-- The claim's severity-side priority condition: numeric severity ≥ 60. -/
def sevAtLeast60 (it : VItem) : Bool :=
  match numVal it.severity with
  | some q => decide ((60 : ℚ) ≤ q)
  | none => false

/-- C8: `priority_candidates_count` counts exactly the items satisfying
(THREAT case-insensitively ∧ urgency ∈ \x7bmedium, high\x7d) ∨ numeric
severity ≥ 60, each item once; and when every item's urgency is "low" it
equals the count of items with numeric severity ≥ 60. -/
theorem c8_priority_count (items : List VItem) :
    (compute_stats items).priority_candidates_count =
      items.countP (fun it => threatUrgent it || sevAtLeast60 it) ∧
    ((∀ it ∈ items, it.urgency = JVal.jstr "low") →
      (compute_stats items).priority_candidates_count = items.countP sevAtLeast60) := by
  have hmain : (compute_stats items).priority_candidates_count =
      items.countP (fun it => threatUrgent it || sevAtLeast60 it) := by
    rw [compute_stats_priority_eq, foldl_append_if_length]
    simp only [List.length_nil, Nat.zero_add]
    apply List.countP_congr
    intro it _
    have hcontains : (["high", "medium"].contains
        (pyLower (pyStr (pyOrJ it.urgency (.jstr "low"))))) =
        (pyLower (pyStr (pyOrJ it.urgency (.jstr "low"))) == "medium" ||
         pyLower (pyStr (pyOrJ it.urgency (.jstr "low"))) == "high") := by
      cases h1 : pyLower (pyStr (pyOrJ it.urgency (.jstr "low"))) == "high" <;>
        cases h2 : pyLower (pyStr (pyOrJ it.urgency (.jstr "low"))) == "medium" <;>
          simp [List.contains, List.elem, h1, h2]
    simp only [threatUrgent, sevAtLeast60, hcontains]
  refine ⟨hmain, fun hlow => ?_⟩
  rw [hmain]
  apply List.countP_congr
  intro it hmem
  have hth : threatUrgent it = false := by
    unfold threatUrgent
    rw [hlow it hmem]
    rw [show pyLower (pyStr (pyOrJ (JVal.jstr "low") (JVal.jstr "low"))) = "low" from rfl]
    rw [show (("low" == "medium") || ("low" == "high")) = false from rfl]
    exact Bool.and_false _
  rw [hth, Bool.false_or]

/-- C8 witness items: two NEUTRAL all-low items, severities 70 and 30. -/
def c8items : List VItem :=
  [ { intent_framing := .jstr "NEUTRAL", urgency := .jstr "low", severity := .jnum 70 }
  , { intent_framing := .jstr "NEUTRAL", urgency := .jstr "low", severity := .jnum 30 } ]

/-- All C8 witness items carry urgency "low". -/
theorem c8items_all_low : ∀ it ∈ c8items, it.urgency = JVal.jstr "low" := by
  intro it h
  simp only [c8items, List.mem_cons, List.not_mem_nil, or_false] at h
  rcases h with rfl | rfl <;> rfl

/-- C8 witness: the all-low corollary applied to `c8items`. -/
theorem c8_priority_count_witness :
    (∀ it ∈ c8items, it.urgency = JVal.jstr "low") ∧
    (compute_stats c8items).priority_candidates_count = c8items.countP sevAtLeast60 :=
  ⟨c8items_all_low, (c8_priority_count c8items).2 c8items_all_low⟩

/-! ## Claim C10: non-numeric severities in `compute_stats` -/

/-- Blank the severity of an item whose severity is not numeric
(`isinstance(..., (int, float))` fails). -/
def blankNonNumeric (it : VItem) : VItem :=
  if (numVal it.severity).isSome then it else { it with severity := .jnull }

/-- Blanking preserves the numeric view of the severity. -/
theorem numVal_blankNonNumeric (it : VItem) :
    numVal (blankNonNumeric it).severity = numVal it.severity := by
  unfold blankNonNumeric
  by_cases h : (numVal it.severity).isSome = true
  · rw [if_pos h]
  · rw [if_neg h]
    have hnone : numVal it.severity = none := by
      cases hq : numVal it.severity
      · rfl
      · rw [hq] at h
        exact absurd rfl h
    rw [hnone]
    rfl

/-- Blanking preserves every field except the severity. -/
theorem blankNonNumeric_fields (it : VItem) :
    (blankNonNumeric it).intent_framing = it.intent_framing ∧
    (blankNonNumeric it).urgency = it.urgency := by
  unfold blankNonNumeric
  split <;> exact ⟨rfl, rfl⟩

/-- C10: `compute_stats` ignores items with a non-numeric severity when
computing severity_stats, top_by_severity and the severity ≥ 60 priority
condition (blanking those severities changes nothing); with no numeric
severity it returns `\x7bmin: None, max: None, avg: None\x7d` and an empty
top list rather than raising; with numeric severities present, min and
max are truncated to int and avg is the mean rounded to 2 decimals. -/
theorem c10_severity_handling (items : List VItem) :
    ((compute_stats (items.map blankNonNumeric)).severity_stats =
        (compute_stats items).severity_stats ∧
      (compute_stats (items.map blankNonNumeric)).top_by_severity =
        (compute_stats items).top_by_severity ∧
      (compute_stats (items.map blankNonNumeric)).priority_candidates_count =
        (compute_stats items).priority_candidates_count) ∧
    (∀ t ∈ (compute_stats items).top_by_severity, (numVal t.severity).isSome = true) ∧
    (items.filterMap (fun i => numVal i.severity) = [] →
      (compute_stats items).severity_stats = { min := none, max := none, avg := none } ∧
      (compute_stats items).top_by_severity = []) ∧
    (∀ x xs, items.filterMap (fun i => numVal i.severity) = x :: xs →
      (compute_stats items).severity_stats =
        { min := some (pyInt (xs.foldl Min.min x))
        , max := some (pyInt (xs.foldl Max.max x))
        , avg := some (pyRound2 (((x :: xs).foldl (· + ·) 0) / ((x :: xs).length : ℚ))) }) := by
  have hfm : (items.map blankNonNumeric).filterMap (fun i => numVal i.severity) =
      items.filterMap (fun i => numVal i.severity) := by
    rw [List.filterMap_map]
    apply List.filterMap_congr
    intro it _
    exact numVal_blankNonNumeric it
  have hfl : (items.map blankNonNumeric).filter (fun i => (numVal i.severity).isSome) =
      items.filter (fun i => (numVal i.severity).isSome) := by
    rw [List.filter_map]
    have h1 : items.filter ((fun i => (numVal i.severity).isSome) ∘ blankNonNumeric) =
        items.filter (fun i => (numVal i.severity).isSome) := by
      apply List.filter_congr
      intro it _
      simp only [Function.comp_apply, numVal_blankNonNumeric]
    rw [h1]
    have h2 : ∀ a ∈ items.filter (fun i => (numVal i.severity).isSome),
        blankNonNumeric a = id a := by
      intro a ha
      have hs := (List.mem_filter.mp ha).2
      unfold blankNonNumeric
      rw [if_pos hs]
      rfl
    rw [List.map_congr_left h2, List.map_id]
  refine ⟨⟨?_, ?_, ?_⟩, ?_, ?_, ?_⟩
  · rw [compute_stats_sevstats_eq, compute_stats_sevstats_eq, hfm]
  · rw [compute_stats_top_eq, compute_stats_top_eq, hfl]
  · rw [compute_stats_priority_eq, compute_stats_priority_eq,
      foldl_append_if_length, foldl_append_if_length]
    simp only [List.length_nil, Nat.zero_add]
    rw [List.countP_map]
    apply List.countP_congr
    intro it _
    simp only [Function.comp_apply, numVal_blankNonNumeric,
      (blankNonNumeric_fields it).1, (blankNonNumeric_fields it).2]
  · intro t ht
    rw [compute_stats_top_eq] at ht
    rcases List.mem_map.mp ht with ⟨x, hx, rfl⟩
    have hx2 := List.mem_of_mem_take hx
    have hx3 := (mem_insSortBy _ _ _).mp hx2
    exact (List.mem_filter.mp hx3).2
  · intro hnil
    constructor
    · rw [compute_stats_sevstats_eq, hnil]
    · rw [compute_stats_top_eq]
      have : items.filter (fun i => (numVal i.severity).isSome) = [] := by
        rw [List.filter_eq_nil_iff]
        intro a ha hsome
        have := List.filterMap_eq_nil_iff.mp hnil a ha
        rw [this] at hsome
        exact Bool.false_ne_true hsome
      rw [this]
      rfl
  · intro x xs hx
    rw [compute_stats_sevstats_eq, hx]

/-- C10 witness data: one numeric severity (70) and one non-numeric. -/
def c10items : List VItem :=
  [ { intent_framing := .jstr "NEUTRAL", urgency := .jstr "low", severity := .jnum 70 }
  , { intent_framing := .jstr "NEUTRAL", urgency := .jstr "low", severity := .jstr "n/a" } ]

/-- C10 witness: the nonempty-severities clause applied to `c10items`. -/
theorem c10_severity_handling_witness :
    (c10items.filterMap (fun i => numVal i.severity) = [(70 : ℚ)]) ∧
    (compute_stats c10items).severity_stats =
      { min := some (pyInt (([] : List ℚ).foldl Min.min 70))
      , max := some (pyInt (([] : List ℚ).foldl Max.max 70))
      , avg := some (pyRound2 ((([(70 : ℚ)]).foldl (· + ·) 0) / (([(70 : ℚ)]).length : ℚ))) } :=
  ⟨rfl, (c10_severity_handling c10items).2.2.2 70 [] rfl⟩

/-! ## Helper lemmas: infixes surviving `stripList` -/

/-- A list with an element failing the predicate has a nonempty
`dropWhile`. -/
theorem dropWhile_ne_nil_of_exists {p : α → Bool} {a : List α}
    (h : ∃ c ∈ a, p c = false) : a.dropWhile p ≠ [] := by
  induction a with
  | nil =>
    rcases h with ⟨c, hc, _⟩
    exact absurd hc (List.not_mem_nil c)
  | cons x xs ih =>
    rw [List.dropWhile_cons]
    by_cases hx : p x = true
    · rw [if_pos hx]
      apply ih
      rcases h with ⟨c, hc, hpc⟩
      rcases List.mem_cons.mp hc with rfl | hmem
      · rw [hpc] at hx
        exact absurd hx Bool.false_ne_true
      · exact ⟨c, hmem, hpc⟩
    · rw [if_neg hx]
      simp

/-- `strContains` holds of an exhibited infix. -/
theorem strContains_true_of_infix (hay pat : String) (h : pat.data <:+: hay.data) :
    strContains hay pat = true :=
  decide_eq_true h

/-- The character list of a stripped string. -/
theorem pyStrip_data (s : String) : (pyStrip s).data = stripList s.data := rfl

/-- A block surrounded on both sides by some non-whitespace character
survives stripping. -/
theorem infix_stripList {g : List Char} (a b : List Char)
    (ha : ∃ c ∈ a, isWsChar c = false) (hb : ∃ c ∈ b, isWsChar c = false) :
    g <:+: stripList (a ++ g ++ b) := by
  unfold stripList
  have hna : a.dropWhile isWsChar ≠ [] := dropWhile_ne_nil_of_exists ha
  have hnb : b.reverse.dropWhile isWsChar ≠ [] := by
    apply dropWhile_ne_nil_of_exists
    rcases hb with ⟨c, hc, hpc⟩
    exact ⟨c, List.mem_reverse.mpr hc, hpc⟩
  rw [List.append_assoc, List.dropWhile_append,
    if_neg (by simpa using hna)]
  rw [List.reverse_append, List.reverse_append, List.append_assoc,
    List.dropWhile_append, if_neg (by simpa using hnb)]
  rw [List.reverse_append, List.reverse_append, List.reverse_reverse,
    List.reverse_reverse]
  exact ⟨a.dropWhile isWsChar, (b.reverse.dropWhile isWsChar).reverse, by
    simp [List.append_assoc]⟩

/-! ## Claim C9: the Act gating law -/

/-- C9 counterexample items: one NEUTRAL item, so zero THREAT items. -/
def c9items : List VItem :=
  [{ intent_framing := .jstr "NEUTRAL", urgency := .jstr "low", severity := .jnum 10 }]

/-- C9 counterexample response: a parseable synthesis response carrying a
real holding statement and a Legal-owned action. -/
def c9resp : JVal :=
  .jobj
    [ ("comms_package",
        .jobj [("external_holding_statement", .jstr "We are investigating the matter.")])
    , ("action_plan_next_4_hours",
        .jarr [.jobj [("owner_team", .jarr [.jstr "Legal"])]]) ]

/-- C9 is false as stated: over a decided-item set with zero THREAT items,
a parseable synthesis response whose holding statement is not the "not
needed" sentinel and whose plan contains a Legal-owned action is persisted
verbatim to runs_act. -/
theorem c9_counterexample :
    c9items.countP
      (fun it => pyUpper (pyStr (pyOrJ it.intent_framing (.jstr "NEUTRAL"))) == "THREAT") = 0 ∧
    ((jGet ((act_full c9items c9resp).act) "comms_package").bind
        (fun v => jGet v "external_holding_statement")) =
      some (.jstr "We are investigating the matter.") ∧
    "We are investigating the matter." ≠ "not needed" ∧
    jGet ((act_full c9items c9resp).act) "action_plan_next_4_hours" =
      some (.jarr [.jobj [("owner_team", .jarr [.jstr "Legal"])]]) :=
  ⟨rfl, rfl, by decide, rfl⟩

/-- C9 (amended): the gating rule lives in the prompt, not in the code:
the prompt built by `build_act_prompt` always contains the GATING RULES
text demanding the "not needed" sentinel and forbidding Legal when zero
THREAT items exist, but the package persisted to runs_act is the parsed
service response verbatim, so a response violating the gating rule is
persisted unchanged. -/
theorem c9_gating_prompt_only (brand payload : String) (items : List VItem) (act_core : JVal) :
    strContains (build_act_prompt brand payload) ACT_GATING = true ∧
    (act_full items act_core).act = act_core := by
  constructor
  · apply strContains_true_of_infix
    unfold build_act_prompt
    rw [pyStrip_data]
    have hdata : (ACT_PRE1 ++ brand ++ ACT_PRE2 ++ ACT_GATING ++ ACT_POST ++ payload ++ "\n").data
        = (ACT_PRE1.data ++ brand.data ++ ACT_PRE2.data) ++ ACT_GATING.data ++
          (ACT_POST.data ++ payload.data ++ "\n".data) := by
      simp only [String.data_append, List.append_assoc]
    rw [hdata]
    exact infix_stripList _ _
      ⟨'R', List.mem_append_left _ (List.mem_append_left _ (by decide)), by decide⟩
      ⟨'-', List.mem_append_left _ (List.mem_append_left _ (by decide)), by decide⟩
  · rfl

/-! ## Helper lemmas about the selectors -/

/-- Elements of the deduplicated list come from the input. -/
theorem mem_of_mem_dedupByKeyAux (key : α → β) [DecidableEq β] (seen : List β)
    (l : List α) (x : α) (h : x ∈ dedupByKeyAux key seen l) : x ∈ l := by
  induction l generalizing seen with
  | nil => exact absurd h (List.not_mem_nil x)
  | cons a as ih =>
    simp only [dedupByKeyAux] at h
    by_cases hk : key a ∈ seen
    · rw [if_pos hk] at h
      exact List.mem_cons_of_mem _ (ih _ h)
    · rw [if_neg hk] at h
      rcases List.mem_cons.mp h with rfl | h2
      · exact List.mem_cons_self _ _
      · exact List.mem_cons_of_mem _ (ih _ h2)

/-- An element that is the unique carrier of its key among the input and
whose key is not yet seen survives the dedup. -/
theorem mem_dedupByKeyAux_of_injKey (key : α → β) [DecidableEq β] (seen : List β)
    (l : List α) (r : α) (hr : r ∈ l) (hseen : key r ∉ seen)
    (hinj : ∀ b ∈ l, key b = key r → b = r) :
    r ∈ dedupByKeyAux key seen l := by
  induction l generalizing seen with
  | nil => exact absurd hr (List.not_mem_nil r)
  | cons a as ih =>
    simp only [dedupByKeyAux]
    by_cases hk : key a ∈ seen
    · rw [if_pos hk]
      rcases List.mem_cons.mp hr with rfl | h2
      · exact absurd hk hseen
      · exact ih seen h2 hseen (fun b hb => hinj b (List.mem_cons_of_mem _ hb))
    · rw [if_neg hk]
      by_cases har : a = r
      · subst har
        exact List.mem_cons_self _ _
      · rcases List.mem_cons.mp hr with rfl | h2
        · exact List.mem_cons_self _ _
        · apply List.mem_cons_of_mem
          apply ih (key a :: seen) h2 ?_ (fun b hb hkey => hinj b (List.mem_cons_of_mem _ hb) hkey)
          intro hmem
          rcases List.mem_cons.mp hmem with heq | hmem2
          · exact har (hinj a (List.mem_cons_self _ _) heq.symm)
          · exact hseen hmem2

/-- Every key of the input is represented in the deduplicated list. -/
theorem dedupByKeyAux_key_represented (key : α → β) [DecidableEq β] (seen : List β)
    (l : List α) (r : α) (hr : r ∈ l) (hseen : key r ∉ seen) :
    ∃ r' ∈ dedupByKeyAux key seen l, key r' = key r := by
  induction l generalizing seen with
  | nil => exact absurd hr (List.not_mem_nil r)
  | cons a as ih =>
    simp only [dedupByKeyAux]
    by_cases hk : key a ∈ seen
    · rw [if_pos hk]
      rcases List.mem_cons.mp hr with rfl | h2
      · exact absurd hk hseen
      · exact ih seen h2 hseen
    · rw [if_neg hk]
      by_cases hkey : key a = key r
      · exact ⟨a, List.mem_cons_self _ _, hkey⟩
      · rcases List.mem_cons.mp hr with rfl | h2
        · exact absurd rfl hkey
        · rcases ih (key a :: seen) h2
            (fun hmem => by
              rcases List.mem_cons.mp hmem with heq | hmem2
              · exact hkey heq.symm
              · exact hseen hmem2) with ⟨r', hr', hkr⟩
          exact ⟨r', List.mem_cons_of_mem _ hr', hkr⟩

/-- A record selected by the Orient selector has no orient row yet. -/
theorem fetch_latest_sub_pending (raws : List RawRow) (orients : List OrientRow)
    (limit : Nat) (r : RawRow) (h : r ∈ fetch_latest_items raws orients limit) :
    r ∈ raws ∧ (orients.any (fun o => o.raw_item_id == r.id)) = false := by
  simp only [fetch_latest_items, dedupByKey] at h
  have h1 := mem_of_mem_dedupByKeyAux _ _ _ _ h
  have h2 : r ∈ insSortBy (fun a b => Nat.ble b.id a.id)
      (raws.filter (fun r => !(orients.any (fun o => o.raw_item_id == r.id)))) := by
    by_cases hl : 0 < limit
    · rw [if_pos hl] at h1
      exact List.mem_of_mem_take h1
    · rw [if_neg hl] at h1
      exact h1
  have h3 := (mem_insSortBy _ _ _).mp h2
  have h4 := List.mem_filter.mp h3
  refine ⟨h4.1, ?_⟩
  have h5 := h4.2
  rwa [Bool.not_eq_true'] at h5

/-- Closed form of the pre-dispatch loop when the orient ids of the
fetched records are pairwise distinct: noise rows for the undecided
brand-irrelevant records, dispatch queue for the undecided relevant
ones. -/
theorem decide_phase1_eq (decides : List DecideRow) (brand : String)
    (records : List JoinedRec)
    (hnd : (records.map (fun rec => rec.orient_id)).Nodup) :
    decide_phase1 decides brand records =
      (((records.filter (fun rec =>
            !already_decided decides rec.orient_id && noiseCase brand rec)).map
          (noiseRow brand)),
        records.filter (fun rec =>
          !already_decided decides rec.orient_id && !noiseCase brand rec)) := by
  suffices haux : ∀ (records : List JoinedRec) (ins : List DecideRow) (todo : List JoinedRec),
      (∀ rec ∈ records, already_decided ins rec.orient_id = false) →
      (records.map (fun rec => rec.orient_id)).Nodup →
      records.foldl (fun acc rec =>
        if already_decided (decides ++ acc.1) rec.orient_id then acc
        else if noiseCase brand rec then (acc.1 ++ [noiseRow brand rec], acc.2)
        else (acc.1, acc.2 ++ [rec])) (ins, todo) =
      (ins ++ (records.filter (fun rec =>
          !already_decided decides rec.orient_id && noiseCase brand rec)).map (noiseRow brand),
        todo ++ records.filter (fun rec =>
          !already_decided decides rec.orient_id && !noiseCase brand rec)) by
    have h := haux records [] [] (fun _ _ => rfl) hnd
    simpa [decide_phase1] using h
  intro records
  induction records with
  | nil => intro ins todo _ _; simp
  | cons rec rest ih =>
    intro ins todo hdisj hnd2
    simp only [List.foldl_cons]
    have hstep : already_decided (decides ++ ins) rec.orient_id =
        already_decided decides rec.orient_id := by
      unfold already_decided
      rw [List.any_append]
      unfold already_decided at hdisj
      rw [hdisj rec (List.mem_cons_self _ _), Bool.or_false]
    have hndrest : (rest.map (fun rec => rec.orient_id)).Nodup :=
      (List.nodup_cons.mp hnd2).2
    have hoid : rec.orient_id ∉ rest.map (fun rec => rec.orient_id) :=
      (List.nodup_cons.mp hnd2).1
    by_cases hdec : already_decided decides rec.orient_id = true
    · rw [if_pos (by rw [hstep]; exact hdec)]
      rw [ih ins todo (fun r hr => hdisj r (List.mem_cons_of_mem _ hr)) hndrest]
      rw [List.filter_cons, List.filter_cons]
      rw [if_neg (by rw [hdec]; simp), if_neg (by rw [hdec]; simp)]
    · have hdecf : already_decided decides rec.orient_id = false :=
        Bool.not_eq_true _ ▸ eq_false_of_ne_true hdec
      rw [if_neg (by rw [hstep, hdecf]; exact Bool.false_ne_true)]
      by_cases hnoise : noiseCase brand rec = true
      · rw [if_pos hnoise]
        have hdisj2 : ∀ r ∈ rest, already_decided (ins ++ [noiseRow brand rec]) r.orient_id = false := by
          intro r hr
          unfold already_decided
          rw [List.any_append]
          unfold already_decided at hdisj
          rw [hdisj r (List.mem_cons_of_mem _ hr), Bool.false_or]
          simp only [List.any_cons, List.any_nil, Bool.or_false, noiseRow]
          rw [beq_eq_false_iff_ne]
          intro heq
          exact hoid (by rw [heq]; exact List.mem_map_of_mem _ hr)
        rw [ih (ins ++ [noiseRow brand rec]) todo hdisj2 hndrest]
        rw [List.filter_cons, List.filter_cons]
        rw [if_pos (by rw [hdecf, hnoise]; rfl), if_neg (by rw [hdecf, hnoise]; simp)]
        simp [List.append_assoc]
      · have hnoisef : noiseCase brand rec = false :=
          Bool.not_eq_true _ ▸ eq_false_of_ne_true hnoise
        rw [if_neg (by rw [hnoisef]; exact Bool.false_ne_true)]
        have hdisj2 : ∀ r ∈ rest, already_decided ins r.orient_id = false :=
          fun r hr => hdisj r (List.mem_cons_of_mem _ hr)
        rw [ih ins (todo ++ [rec]) hdisj2 hndrest]
        rw [List.filter_cons, List.filter_cons]
        rw [if_neg (by rw [hdecf, hnoisef]; simp), if_pos (by rw [hdecf, hnoisef]; rfl)]
        simp [List.append_assoc]

/-! ## Claim C5: running a stage twice -/

/-- First C5 counterexample raw item (same normalized title as the
second, different outlet suffix). -/
def c5rawA : RawRow :=
  { id := 1, source := "rss", source_item_id := "a", brand := "acme"
  , title := "acme story - CNN", url := "u1", content := "", published_at := 10 }

/-- Second C5 counterexample raw item. -/
def c5rawB : RawRow :=
  { id := 2, source := "rss", source_item_id := "b", brand := "acme"
  , title := "acme story - BBC", url := "u2", content := "", published_at := 10 }

/-- An Orient service that answers every batch, echoing every id. -/
def c5respond : List RawRow → Option (List OrientOut) :=
  fun b => some (b.map (fun it => { item_id := some it.id, severity := some 50 }))

/-- The orient rows of the first run over the two items. -/
def c5orients1 : List OrientRow := orient_run [c5rawA, c5rawB] [] c5respond 1

/-- C5 is false as stated for Orient: the first run selects only one of
two raw items sharing a normalized title (the selector dedups by title),
processes it successfully, and the second run — with no new upstream
rows — still inserts a new items_orient row for the suppressed
duplicate. -/
theorem c5_counterexample :
    fetch_latest_items [c5rawA, c5rawB] [] 0 = [c5rawB] ∧
    (∀ r ∈ fetch_latest_items [c5rawA, c5rawB] [] 0,
      (c5orients1.any (fun o => o.raw_item_id == r.id)) = true) ∧
    orient_run [c5rawA, c5rawB] c5orients1 c5respond 2 ≠ [] := by
  refine ⟨rfl, by decide, by decide⟩

/-- C5 (amended): with no new upstream rows and every record selected in
the first run processed successfully, the second run inserts zero new
rows — unconditionally for Decide, and for Orient provided no two raw
items pending before the first run share a normalized title (records
suppressed by the Orient selector's title dedup are otherwise selected
and processed by the second run). -/
theorem c5_second_run_inserts_nothing :
    (∀ (raws : List RawRow) (orients orients2 : List OrientRow)
        (respond : List RawRow → Option (List OrientOut)) (nid : Nat),
      (∀ o ∈ orients, o ∈ orients2) →
      (∀ r ∈ fetch_latest_items raws orients 0,
        (orients2.any (fun o => o.raw_item_id == r.id)) = true) →
      (∀ r ∈ raws.filter (fun r => !(orients.any (fun o => o.raw_item_id == r.id))),
        ∀ r' ∈ raws.filter (fun r => !(orients.any (fun o => o.raw_item_id == r.id))),
          titleNorm r.title = titleNorm r'.title → r = r') →
      orient_run raws orients2 respond nid = []) ∧
    (∀ (raws : List RawRow) (orients : List OrientRow) (decides2 : List DecideRow)
        (brand : String) (cutoff : Int) (respond : JoinedRec → Option DecideObj),
      (∀ rec ∈ fetch_recent_orient_with_raw raws orients brand cutoff 20,
        already_decided decides2 rec.orient_id = true) →
      decide_run raws orients decides2 brand cutoff respond = []) := by
  constructor
  · intro raws orients orients2 respond nid hsub hdone hinj
    have hpend2 : raws.filter (fun r => !(orients2.any (fun o => o.raw_item_id == r.id))) = [] := by
      rw [List.filter_eq_nil_iff]
      intro r hr hcond
      rw [Bool.not_eq_true'] at hcond
      have hany1 : (orients.any (fun o => o.raw_item_id == r.id)) = false := by
        by_cases h : (orients.any (fun o => o.raw_item_id == r.id)) = true
        · rcases List.any_eq_true.mp h with ⟨o, ho, hmatch⟩
          have h2 : (orients2.any (fun o => o.raw_item_id == r.id)) = true :=
            List.any_eq_true.mpr ⟨o, hsub o ho, hmatch⟩
          rw [h2] at hcond
          exact absurd hcond.symm Bool.false_ne_true
        · exact eq_false_of_ne_true h
      have hrp : r ∈ raws.filter (fun r => !(orients.any (fun o => o.raw_item_id == r.id))) :=
        List.mem_filter.mpr ⟨hr, by rw [hany1]; rfl⟩
      have hrf : r ∈ fetch_latest_items raws orients 0 := by
        simp only [fetch_latest_items, dedupByKey]
        rw [if_neg (Nat.lt_irrefl 0)]
        apply mem_dedupByKeyAux_of_injKey _ _ _ _ ((mem_insSortBy _ _ _).mpr hrp)
          (List.not_mem_nil _)
        intro b hb hkey
        exact hinj b ((mem_insSortBy _ _ _).mp hb) r hrp hkey
      have h3 := hdone r hrf
      rw [h3] at hcond
      exact absurd hcond.symm Bool.false_ne_true
    have hfetch2 : fetch_latest_items raws orients2 0 = [] := by
      simp only [fetch_latest_items, dedupByKey]
      rw [hpend2]
      rfl
    simp only [orient_run]
    rw [hfetch2]
    rfl
  · intro raws orients decides2 brand cutoff respond hdone
    have hfold : ∀ (records : List JoinedRec),
        (∀ rec ∈ records, already_decided decides2 rec.orient_id = true) →
        records.foldl (fun acc rec =>
          if already_decided (decides2 ++ acc.1) rec.orient_id then acc
          else if noiseCase brand rec then (acc.1 ++ [noiseRow brand rec], acc.2)
          else (acc.1, acc.2 ++ [rec])) ([], []) = ([], []) := by
      intro records
      induction records with
      | nil => intro _; rfl
      | cons rec rest ih =>
        intro hdone2
        rw [List.foldl_cons]
        have hcond : already_decided (decides2 ++ ([] : List DecideRow)) rec.orient_id = true := by
          unfold already_decided
          rw [List.any_append]
          unfold already_decided at hdone2
          rw [hdone2 rec (List.mem_cons_self _ _)]
          rfl
        rw [if_pos hcond]
        exact ih (fun r hr => hdone2 r (List.mem_cons_of_mem _ hr))
    simp only [decide_run, decide_phase1]
    rw [hfold (fetch_recent_orient_with_raw raws orients brand cutoff 20) hdone]
    rfl

/-- A decide row marking `demoOrient` as already decided. -/
def c5decided : DecideRow :=
  { raw_item_id := 1, orient_id := 1, brand := "acme", decide_obj := noise_record }

/-- C5 witness: the theorem applied to a concrete one-item database where
the first run oriented (resp. decided) the single selected record. -/
theorem c5_second_run_inserts_nothing_witness :
    ((∀ o ∈ ([] : List OrientRow), o ∈ [demoOrient]) ∧
      (∀ r ∈ fetch_latest_items [demoRaw] [] 0,
        ([demoOrient].any (fun o => o.raw_item_id == r.id)) = true) ∧
      (∀ r ∈ [demoRaw].filter
          (fun r => !(([] : List OrientRow).any (fun o => o.raw_item_id == r.id))),
        ∀ r' ∈ [demoRaw].filter
            (fun r => !(([] : List OrientRow).any (fun o => o.raw_item_id == r.id))),
          titleNorm r.title = titleNorm r'.title → r = r') ∧
      (∀ rec ∈ fetch_recent_orient_with_raw [demoRaw] [demoOrient] "acme" 0 20,
        already_decided [c5decided] rec.orient_id = true)) ∧
    orient_run [demoRaw] [demoOrient] (fun _ => none) 7 = [] ∧
    decide_run [demoRaw] [demoOrient] [c5decided] "acme" 0 (fun _ => none) = [] :=
  ⟨⟨by decide, by decide, by decide, by decide⟩,
    c5_second_run_inserts_nothing.1 [demoRaw] [] [demoOrient] (fun _ => none) 7
      (by decide) (by decide) (by decide),
    c5_second_run_inserts_nothing.2 [demoRaw] [demoOrient] [c5decided] "acme" 0
      (fun _ => none) (by decide)⟩

/-! ## Claim C6: selectors versus the set of pending records -/

/-- C6 counterexample raw items: two pending items with one normalized
title. -/
def c6raws : List RawRow :=
  [ { id := 1, source := "rss", source_item_id := "x", brand := "acme"
    , title := "acme recall - Reuters", url := "w1", content := "", published_at := 5 }
  , { id := 2, source := "rss", source_item_id := "y", brand := "acme"
    , title := "acme recall - AP", url := "w2", content := "", published_at := 5 } ]

/-- C6 is false as stated: two raw items lack a downstream row, but the
Orient selector yields only one of them (title dedup), so the selector
does not yield exactly the records lacking a downstream row. -/
theorem c6_counterexample :
    (fetch_latest_items c6raws [] 0).length = 1 ∧
    (c6raws.filter
      (fun r => !(([] : List OrientRow).any (fun o => o.raw_item_id == r.id)))).length = 2 :=
  ⟨rfl, rfl⟩

/-- C6 (amended): the Orient selector yields only records lacking an
orient row, and every such pending record is represented in the selection
by a record with the same normalized title (one representative per
title); the Decide stage's effective selection — the records that are
noise-inserted or dispatched — is exactly the not-yet-decided records
among the 20 highest-severity recent orient rows returned by its
fetch (with pairwise-distinct orient ids), so a pending record outside
that top-20 window is not selected. -/
theorem c6_selector_characterization :
    (∀ (raws : List RawRow) (orients : List OrientRow) (limit : Nat) (r : RawRow),
      r ∈ fetch_latest_items raws orients limit →
      (orients.any (fun o => o.raw_item_id == r.id)) = false) ∧
    (∀ (raws : List RawRow) (orients : List OrientRow) (r : RawRow),
      r ∈ raws →
      (orients.any (fun o => o.raw_item_id == r.id)) = false →
      ∃ r' ∈ fetch_latest_items raws orients 0, titleNorm r'.title = titleNorm r.title) ∧
    (∀ (raws : List RawRow) (orients : List OrientRow) (decides : List DecideRow)
        (brand : String) (cutoff : Int),
      ((fetch_recent_orient_with_raw raws orients brand cutoff 20).map
          (fun rec => rec.orient_id)).Nodup →
      ∀ rec ∈ fetch_recent_orient_with_raw raws orients brand cutoff 20,
        ((rec ∈ (decide_phase1 decides brand
              (fetch_recent_orient_with_raw raws orients brand cutoff 20)).2 ∨
          ∃ d ∈ (decide_phase1 decides brand
              (fetch_recent_orient_with_raw raws orients brand cutoff 20)).1,
            d.orient_id = rec.orient_id) ↔
          already_decided decides rec.orient_id = false)) := by
  refine ⟨?_, ?_, ?_⟩
  · intro raws orients limit r h
    exact (fetch_latest_sub_pending raws orients limit r h).2
  · intro raws orients r hr hany
    have hrp : r ∈ raws.filter (fun r => !(orients.any (fun o => o.raw_item_id == r.id))) :=
      List.mem_filter.mpr ⟨hr, by rw [hany]; rfl⟩
    have hrs := (mem_insSortBy (fun a b => Nat.ble b.id a.id) r _).mpr hrp
    simp only [fetch_latest_items, dedupByKey]
    rw [if_neg (Nat.lt_irrefl 0)]
    exact dedupByKeyAux_key_represented (fun r => titleNorm r.title) [] _ r hrs
      (List.not_mem_nil _)
  · intro raws orients decides brand cutoff hnd rec hrec
    rw [decide_phase1_eq decides brand _ hnd]
    constructor
    · rintro (hL | ⟨d, hd, hoid⟩)
      · have h2 := (List.mem_filter.mp hL).2
        rw [Bool.and_eq_true] at h2
        rcases h2 with ⟨ha, _⟩
        rwa [Bool.not_eq_true'] at ha
      · rcases List.mem_map.mp hd with ⟨rec', hrec', rfl⟩
        have h2 := (List.mem_filter.mp hrec').2
        rw [Bool.and_eq_true] at h2
        rcases h2 with ⟨ha, _⟩
        rw [Bool.not_eq_true'] at ha
        rw [← hoid]
        exact ha
    · intro hnotdec
      by_cases hn : noiseCase brand rec = true
      · right
        refine ⟨noiseRow brand rec, List.mem_map_of_mem _ (List.mem_filter.mpr ⟨hrec, ?_⟩), rfl⟩
        rw [Bool.and_eq_true]
        exact ⟨by rw [hnotdec]; rfl, hn⟩
      · left
        refine List.mem_filter.mpr ⟨hrec, ?_⟩
        rw [Bool.and_eq_true]
        exact ⟨by rw [hnotdec]; rfl, by rw [eq_false_of_ne_true hn]; rfl⟩

/-- The joined record of the one-item demo database. -/
def demoJoined : JoinedRec :=
  { orient_id := 1, raw_item_id := 1, severity := some 50
  , title := "acme news", url := "http://e.com/a", content := "about acme" }

/-- C6 witness: the three parts of the characterization applied to the
one-item demo database. -/
theorem c6_selector_characterization_witness :
    (demoRaw ∈ fetch_latest_items [demoRaw] [] 0 ∧
      ([] : List OrientRow).any (fun o => o.raw_item_id == demoRaw.id) = false) ∧
    (∃ r' ∈ fetch_latest_items [demoRaw] [] 0,
      titleNorm r'.title = titleNorm demoRaw.title) ∧
    ((demoJoined ∈ (decide_phase1 [] "acme"
          (fetch_recent_orient_with_raw [demoRaw] [demoOrient] "acme" 0 20)).2 ∨
      ∃ d ∈ (decide_phase1 [] "acme"
          (fetch_recent_orient_with_raw [demoRaw] [demoOrient] "acme" 0 20)).1,
        d.orient_id = demoJoined.orient_id) ↔
      already_decided [] demoJoined.orient_id = false) :=
  ⟨⟨by decide,
    c6_selector_characterization.1 [demoRaw] [] 0 demoRaw (by decide)⟩,
    c6_selector_characterization.2.1 [demoRaw] [] demoRaw (by decide) (by decide),
    c6_selector_characterization.2.2 [demoRaw] [demoOrient] [] "acme" 0 (by decide)
      demoJoined (by decide)⟩

end BrandMon
